import Mathlib

/- Verification development for the multi-agent chatbot backend.

   The definitions below are a shallow embedding of the Python sources under
   src/backend (email_agent models, draft storage, approval workflow, send
   worker, safety guard, the dynamic orchestrator, the calendar agent's
   match-before-mutate branches, and the file summarizer's output formatter).
   Machine strings are Lean Strings; JSON files on disk are modelled as the
   structured values written to them; Python datetime values are modelled by
   the PyDateTime record, and datetime.isoformat / datetime.fromisoformat are
   modelled character-code-exactly on lists of ASCII codes. -/

namespace MultiAgent

/-! ### Python `datetime` model and its ISO-8601 codec

`datetime.isoformat()` renders `YYYY-MM-DDTHH:MM:SS[.ffffff]` (the fractional
part only when `microsecond ≠ 0`); `datetime.fromisoformat` parses it back.
We model strings as lists of ASCII codes (45 is the dash, 84 is T, 58 is the
colon, 46 is the dot, 48..57 are the digits). -/

structure PyDateTime where
  year : Nat
  month : Nat
  day : Nat
  hour : Nat
  minute : Nat
  second : Nat
  usec : Nat
deriving DecidableEq, Repr

/-- Field ranges enforced by Python `datetime` construction and by
`fromisoformat` (day-in-month checking is subsumed by `day ≤ 31` here). -/
def validDT (t : PyDateTime) : Bool :=
  decide (1 ≤ t.year ∧ t.year ≤ 9999 ∧ 1 ≤ t.month ∧ t.month ≤ 12 ∧
    1 ≤ t.day ∧ t.day ≤ 31 ∧ t.hour ≤ 23 ∧ t.minute ≤ 59 ∧ t.second ≤ 59 ∧
    t.usec ≤ 999999)

/-- Little-endian decimal digits, computed with structural fuel so the kernel
can evaluate it on literals. -/
def toDigitsRev : Nat → Nat → List Nat
  | _, 0 => []
  | 0, _ + 1 => []
  | f + 1, n + 1 => ((n + 1) % 10) :: toDigitsRev f ((n + 1) / 10)

def natDigits (n : Nat) : List Nat := toDigitsRev n n

def digitsVal : List Nat → Nat
  | [] => 0
  | d :: ds => d + 10 * digitsVal ds

/-- Big-endian ASCII rendering of a natural number (empty for 0). -/
def renderNat (n : Nat) : List Nat := (natDigits n).reverse.map (fun d => 48 + d)

/-- Zero-padded rendering to width `w`, as Python `"%0*d"`/field padding. -/
def padRender (w n : Nat) : List Nat :=
  List.replicate (w - (natDigits n).length) 48 ++ renderNat n

def parseNatCodes (cs : List Nat) : Nat :=
  cs.foldl (fun a c => 10 * a + (c - 48)) 0

def isDigitCode (c : Nat) : Bool := decide (48 ≤ c ∧ c ≤ 57)

/-- Prepend a code to the first group of a split result. -/
def consHead (c : Nat) : List (List Nat) → List (List Nat)
  | [] => [[c]]
  | g :: gs => (c :: g) :: gs

/-- Split a code list on a separator code (like `str.split`). -/
def splitOnCode (sep : Nat) : List Nat → List (List Nat)
  | [] => [[]]
  | c :: rest =>
    if c = sep then [] :: splitOnCode sep rest
    else consHead c (splitOnCode sep rest)

def usecPart (u : Nat) : List Nat := if u = 0 then [] else 46 :: padRender 6 u

/-- `datetime.isoformat()` on the code-list model. -/
def isoFormat (t : PyDateTime) : List Nat :=
  (padRender 4 t.year ++ 45 :: (padRender 2 t.month ++ 45 :: padRender 2 t.day)) ++
  84 :: (padRender 2 t.hour ++ 58 :: (padRender 2 t.minute ++ 58 ::
    (padRender 2 t.second ++ usecPart t.usec)))

def parseSeg (cs : List Nat) : Option Nat :=
  if cs = [] then none
  else if cs.all isDigitCode then some (parseNatCodes cs) else none

def mkValidDT (y mo d h mi s u : Nat) : Option PyDateTime :=
  let t : PyDateTime := ⟨y, mo, d, h, mi, s, u⟩
  if validDT t then some t else none

/-- Expect exactly two groups from a split. -/
def expect2 : List (List Nat) → Option (List Nat × List Nat)
  | [a, b] => some (a, b)
  | _ => none

/-- Expect exactly three groups from a split. -/
def expect3 : List (List Nat) → Option (List Nat × List Nat × List Nat)
  | [a, b, c] => some (a, b, c)
  | _ => none

/-- Seconds group with an optional fractional group. -/
def expectSec : List (List Nat) → Option (List Nat × Option (List Nat))
  | [a] => some (a, none)
  | [a, b] => some (a, some b)
  | _ => none

def usecVal : Option (List Nat) → Option Nat
  | none => some 0
  | some us => parseSeg us

def buildDT (ys mos ds hs mis ss : List Nat) (uss : Option (List Nat)) :
    Option PyDateTime :=
  (parseSeg ys).bind fun y =>
  (parseSeg mos).bind fun mo =>
  (parseSeg ds).bind fun d =>
  (parseSeg hs).bind fun h =>
  (parseSeg mis).bind fun mi =>
  (parseSeg ss).bind fun s =>
  (usecVal uss).bind fun u =>
  mkValidDT y mo d h mi s u

/-- `datetime.fromisoformat` on the code-list model. -/
def fromIso (cs : List Nat) : Option PyDateTime :=
  (expect2 (splitOnCode 84 cs)).bind fun dt =>
  (expect3 (splitOnCode 45 dt.1)).bind fun ymd =>
  (expect3 (splitOnCode 58 dt.2)).bind fun hms =>
  (expectSec (splitOnCode 46 hms.2.2)).bind fun sec =>
  buildDT ymd.1 ymd.2.1 ymd.2.2 hms.1 hms.2.1 sec.1 sec.2

/-! ### Email agent data model (src/backend/email_agent/models.py)

The pydantic models use `use_enum_values`, so enum-typed fields hold the raw
string values; `to_dict` serializes datetimes with `isoformat`, `from_dict`
parses them back with `fromisoformat` and re-runs the field validators
(`to`/`cc`/`bcc` must contain an `@`). -/

inductive DraftStatus
  | drafted
  | pending_approval
  | approved
  | rejected
  | scheduled
  | sent
  | failed
deriving DecidableEq, Repr

def statusValue : DraftStatus → String
  | .drafted => "drafted"
  | .pending_approval => "pending_approval"
  | .approved => "approved"
  | .rejected => "rejected"
  | .scheduled => "scheduled"
  | .sent => "sent"
  | .failed => "failed"

def statusOfValue (s : String) : Option DraftStatus :=
  if s = "drafted" then some .drafted
  else if s = "pending_approval" then some .pending_approval
  else if s = "approved" then some .approved
  else if s = "rejected" then some .rejected
  else if s = "scheduled" then some .scheduled
  else if s = "sent" then some .sent
  else if s = "failed" then some .failed
  else none

inductive EmailTone
  | professional
  | friendly
  | formal
  | casual
deriving DecidableEq, Repr

def toneValue : EmailTone → String
  | .professional => "professional"
  | .friendly => "friendly"
  | .formal => "formal"
  | .casual => "casual"

def toneOfValue (s : String) : Option EmailTone :=
  if s = "professional" then some .professional
  else if s = "friendly" then some .friendly
  else if s = "formal" then some .formal
  else if s = "casual" then some .casual
  else none

inductive EmailPriority
  | low
  | medium
  | high
  | urgent
deriving DecidableEq, Repr

def priorityValue : EmailPriority → String
  | .low => "low"
  | .medium => "medium"
  | .high => "high"
  | .urgent => "urgent"

def priorityOfValue (s : String) : Option EmailPriority :=
  if s = "low" then some .low
  else if s = "medium" then some .medium
  else if s = "high" then some .high
  else if s = "urgent" then some .urgent
  else none

/-- Python membership test `'@' in v` used by the email-field validator. -/
def hasAt (s : String) : Bool := s.data.contains '@'

structure EmailDraft where
  id : String
  session_id : String
  user_id : Option String
  «to» : String
  cc : Option (List String)
  bcc : Option (List String)
  subject : String
  body : String
  tone : EmailTone
  priority : EmailPriority
  status : DraftStatus
  created_at : PyDateTime
  updated_at : PyDateTime
  approved_at : Option PyDateTime
  sent_at : Option PyDateTime
  conversation_context : Option (List String)
  ai_reasoning : Option String
  gmail_message_id : Option String
  gmail_thread_id : Option String
deriving DecidableEq, Repr

/-- The JSON object written to `draft_<id>.json`: datetimes as ISO strings
(code lists), enums as their raw string values.  The `safety_checks` dict is
attached by the agent after the draft record is stored and is not needed by
any claim, so it is not carried here. -/
structure DraftDict where
  id : String
  session_id : String
  user_id : Option String
  «to» : String
  cc : Option (List String)
  bcc : Option (List String)
  subject : String
  body : String
  tone : String
  priority : String
  status : String
  created_at : List Nat
  updated_at : List Nat
  approved_at : Option (List Nat)
  sent_at : Option (List Nat)
  conversation_context : Option (List String)
  ai_reasoning : Option String
  gmail_message_id : Option String
  gmail_thread_id : Option String
deriving DecidableEq, Repr

/-- `EmailDraft.to_dict`. -/
def toDict (d : EmailDraft) : DraftDict :=
  { id := d.id
    session_id := d.session_id
    user_id := d.user_id
    «to» := d.«to»
    cc := d.cc
    bcc := d.bcc
    subject := d.subject
    body := d.body
    tone := toneValue d.tone
    priority := priorityValue d.priority
    status := statusValue d.status
    created_at := isoFormat d.created_at
    updated_at := isoFormat d.updated_at
    approved_at := d.approved_at.map isoFormat
    sent_at := d.sent_at.map isoFormat
    conversation_context := d.conversation_context
    ai_reasoning := d.ai_reasoning
    gmail_message_id := d.gmail_message_id
    gmail_thread_id := d.gmail_thread_id }

/-- Parse an optional ISO string field back to an optional datetime. -/
def optParseIso : Option (List Nat) → Option (Option PyDateTime)
  | none => some none
  | some cs => (fromIso cs).map some

/-- `EmailDraft.from_dict` followed by pydantic validation: ISO strings are
parsed back to datetimes, enum values re-validated, and the `@`-membership
validator re-run on `to`, `cc` and `bcc`.  Any validation failure is an
overall failure (the storage layer catches it and returns `None`). -/
def fromDict (dd : DraftDict) : Option EmailDraft :=
  (fromIso dd.created_at).bind fun ca =>
  (fromIso dd.updated_at).bind fun ua =>
  (optParseIso dd.approved_at).bind fun aa =>
  (optParseIso dd.sent_at).bind fun sa =>
  (statusOfValue dd.status).bind fun st =>
  (toneOfValue dd.tone).bind fun tn =>
  (priorityOfValue dd.priority).bind fun pr =>
  if hasAt dd.«to» ∧ (dd.cc.getD []).all hasAt ∧ (dd.bcc.getD []).all hasAt then
    some
      { id := dd.id
        session_id := dd.session_id
        user_id := dd.user_id
        «to» := dd.«to»
        cc := dd.cc
        bcc := dd.bcc
        subject := dd.subject
        body := dd.body
        tone := tn
        priority := pr
        status := st
        created_at := ca
        updated_at := ua
        approved_at := aa
        sent_at := sa
        conversation_context := dd.conversation_context
        ai_reasoning := dd.ai_reasoning
        gmail_message_id := dd.gmail_message_id
        gmail_thread_id := dd.gmail_thread_id }
  else none

def optValidDT : Option PyDateTime → Bool
  | none => true
  | some t => validDT t

/-- A draft as pydantic can actually hold it: in-range datetimes and
validator-passing recipient fields. -/
def validDraft (d : EmailDraft) : Bool :=
  validDT d.created_at && validDT d.updated_at && optValidDT d.approved_at &&
  optValidDT d.sent_at && hasAt d.«to» && (d.cc.getD []).all hasAt &&
  (d.bcc.getD []).all hasAt

/-! ### Draft storage (src/backend/email_agent/draft_storage.py)

The store is the set of `sessions/<sid>/email_drafts/draft_<id>.json` files,
modelled as an association list from `(session_id, draft_id)` to the stored
JSON object; a later write to a path shadows an earlier one.  The per-session
`index.json` files do not affect `get_draft` and are not modelled. -/

abbrev Store := List ((String × String) × DraftDict)

def storeGet : Store → String × String → Option DraftDict
  | [], _ => none
  | (k, v) :: rest, key => if k = key then some v else storeGet rest key

/-- `get_draft` with no session searches every session directory for
`draft_<id>.json`; the scan order models the glob order. -/
def storeGetById : Store → String → Option DraftDict
  | [], _ => none
  | (k, v) :: rest, did => if k.2 = did then some v else storeGetById rest did

/-- `DraftStorage.save_draft`: stamps `updated_at` and writes the dict. -/
def saveDraft (st : Store) (now : PyDateTime) (d : EmailDraft) :
    Store × EmailDraft :=
  let d2 := { d with updated_at := now }
  (((d2.session_id, d2.id), toDict d2) :: st, d2)

/-- `DraftStorage.get_draft`. -/
def getDraft (st : Store) (draft_id : String) (session_id : Option String) :
    Option EmailDraft :=
  match session_id with
  | some sid => (storeGet st (sid, draft_id)).bind fromDict
  | none => (storeGetById st draft_id).bind fromDict

def updateDraftStatusGo (st : Store) (now : PyDateTime) (status : Option DraftStatus)
    (sent_at : Option PyDateTime) (gmail_message_id gmail_thread_id : Option String) :
    Option EmailDraft → Store
  | none => st
  | some d =>
    let d2 := { d with
      status := status.getD d.status
      sent_at := match sent_at with | none => d.sent_at | some t => some t
      gmail_message_id := match gmail_message_id with
        | none => d.gmail_message_id
        | some m => some m
      gmail_thread_id := match gmail_thread_id with
        | none => d.gmail_thread_id
        | some m => some m }
    (saveDraft st now d2).1

/-- `DraftStorage.update_draft_status`: loads, sets the provided fields,
saves.  Only the keyword fields the send worker actually passes are
modelled. -/
def updateDraftStatus (st : Store) (now : PyDateTime) (draft_id : String)
    (session_id : Option String) (status : Option DraftStatus)
    (sent_at : Option PyDateTime) (gmail_message_id gmail_thread_id : Option String) :
    Store :=
  updateDraftStatusGo st now status sent_at gmail_message_id gmail_thread_id
    (getDraft st draft_id session_id)

/-! ### Approval workflow (src/backend/email_agent/approval_workflow.py) -/

structure ApprovalDecision where
  draft_id : String
  user_id : String
  approved : Bool
  feedback : Option String
  decided_at : PyDateTime
  modifications_requested : Option (List (String × String))
deriving DecidableEq, Repr

/-- One `setattr(draft, field, value)` step of `process_decision`.  The
source allows any attribute name via `hasattr`; the string-typed content
fields the decision dictionary carries are modelled, any other name is a
no-op here. -/
def applyMod (d : EmailDraft) (fv : String × String) : EmailDraft :=
  if fv.1 = "to" then { d with «to» := fv.2 }
  else if fv.1 = "subject" then { d with subject := fv.2 }
  else if fv.1 = "body" then { d with body := fv.2 }
  else if fv.1 = "ai_reasoning" then { d with ai_reasoning := some fv.2 }
  else d

def processDecisionGo (st : Store) (now : PyDateTime) (decision : ApprovalDecision) :
    Option EmailDraft → Except String (Store × EmailDraft)
  | none => .error "Draft not found"
  | some draft =>
    if draft.status ≠ DraftStatus.pending_approval then
      .error "Draft is not pending approval"
    else
      let d2 :=
        if decision.approved then
          (decision.modifications_requested.getD []).foldl applyMod
            { draft with status := DraftStatus.approved,
                         approved_at := some decision.decided_at }
        else { draft with status := DraftStatus.rejected }
      .ok (saveDraft st now d2)

/-- `ApprovalWorkflow.process_decision`.  Raises (models `ValueError`) when
the draft is missing or its status is not `pending_approval`; otherwise
applies the decision and saves. -/
def processDecision (st : Store) (now : PyDateTime) (decision : ApprovalDecision) :
    Except String (Store × EmailDraft) :=
  processDecisionGo st now decision (getDraft st decision.draft_id none)

/-- `ApprovalWorkflow.request_approval`: sets the status to
`pending_approval` and saves, with no check of the current status.  The
in-memory `ApprovalRequest` bookkeeping and the notification stub are not
needed by any claim. -/
def requestApproval (st : Store) (now : PyDateTime) (draft : EmailDraft) :
    Store × EmailDraft :=
  saveDraft st now { draft with status := DraftStatus.pending_approval }

/-! ### Send worker (src/backend/email_agent/send_worker.py)

`GmailConnector.send_email` catches every error and returns a `SendResult`
with `success = False`; it never reports whether the provider failure was
transient or permanent.  `AttemptOutcome` carries that classification so
that theorems can quantify over it — the code ignores it. -/

structure SendResult where
  draft_id : String
  success : Bool
  gmail_message_id : Option String
  gmail_thread_id : Option String
  error_message : Option String
  sent_at : Option PyDateTime
  retry_count : Nat
deriving DecidableEq, Repr

inductive ErrorKind
  | transient
  | permanent
deriving DecidableEq, Repr

inductive AttemptOutcome
  | ok (message_id thread_id : String) (sent_at : PyDateTime)
  | fail (kind : ErrorKind) (msg : String)
deriving DecidableEq, Repr

/-- The `SendResult` the Gmail connector returns for one attempt. -/
def connectorResult (draftId : String) : AttemptOutcome → SendResult
  | .ok m t ts =>
    { draft_id := draftId, success := true, gmail_message_id := some m,
      gmail_thread_id := some t, error_message := none, sent_at := some ts,
      retry_count := 0 }
  | .fail _ msg =>
    { draft_id := draftId, success := false, gmail_message_id := none,
      gmail_thread_id := none, error_message := some msg, sent_at := none,
      retry_count := 0 }

/-- Observable effects of one `_send_email` call tree. -/
structure SendRun where
  result : SendResult
  store : Store
  statusSet : Option DraftStatus
  sleeps : Nat
  attempts : Nat
deriving Repr

def MAX_RETRIES : Nat := 3
def RETRY_DELAY_SECONDS : Nat := 5

/-- The success branch of `_send_email`: mark Sent, record the provider ids,
return the connector result. -/
def successRun (st : Store) (now : PyDateTime) (draft : EmailDraft)
    (m t : String) (ts : PyDateTime) : SendRun :=
  { result := connectorResult draft.id (.ok m t ts)
    store := updateDraftStatus st now draft.id (some draft.session_id)
      (some DraftStatus.sent) (some ts) (some m) (some t)
    statusSet := some DraftStatus.sent
    sleeps := 0
    attempts := 1 }

/-- The retries-exhausted branch of `_send_email`: mark Failed and return the
last connector result with `retry_count` set. -/
def exhaustRun (st : Store) (now : PyDateTime) (draft : EmailDraft)
    (k : ErrorKind) (msg : String) (retryCount : Nat) : SendRun :=
  { result := { connectorResult draft.id (.fail k msg) with
                  retry_count := retryCount }
    store := updateDraftStatus st now draft.id (some draft.session_id)
      (some DraftStatus.failed) none none none
    statusSet := some DraftStatus.failed
    sleeps := 0
    attempts := 1 }

/-- `SendWorker._send_email` with the remaining retry budget made structural:
`remaining = MAX_RETRIES - retry_count`, so the source's retry guard
`retry_count < MAX_RETRIES` is exactly `remaining > 0`. -/
def sendEmailGo (st : Store) (now : PyDateTime) (draft : EmailDraft)
    (outcomes : Nat → AttemptOutcome) : Nat → Nat → SendRun
  | 0, retryCount =>
    match outcomes retryCount with
    | .ok m t ts => successRun st now draft m t ts
    | .fail k msg => exhaustRun st now draft k msg retryCount
  | r + 1, retryCount =>
    match outcomes retryCount with
    | .ok m t ts => successRun st now draft m t ts
    | .fail _ _ =>
      let rest := sendEmailGo st now draft outcomes r (retryCount + 1)
      { rest with sleeps := rest.sleeps + RETRY_DELAY_SECONDS,
                  attempts := rest.attempts + 1 }

def sendEmail (st : Store) (now : PyDateTime) (draft : EmailDraft)
    (outcomes : Nat → AttemptOutcome) (retryCount : Nat) : SendRun :=
  sendEmailGo st now draft outcomes (MAX_RETRIES - retryCount) retryCount

def errorRun (st : Store) (draftId msg : String) : SendRun :=
  { result := { draft_id := draftId, success := false, gmail_message_id := none,
                gmail_thread_id := none, error_message := some msg,
                sent_at := none, retry_count := 0 }
    store := st
    statusSet := none
    sleeps := 0
    attempts := 0 }

def queueSendGo (st : Store) (now : PyDateTime) (draft_id : String)
    (outcomes : Nat → AttemptOutcome) : Option EmailDraft → SendRun
  | none => errorRun st draft_id "Draft not found"
  | some draft =>
    if draft.status ≠ DraftStatus.approved then
      errorRun st draft_id "Draft not approved"
    else
      sendEmail st now draft outcomes 0

/-- `SendWorker.queue_send` (the Redis queue is never configured, so it
always sends immediately). -/
def queueSend (st : Store) (now : PyDateTime) (draft_id : String)
    (outcomes : Nat → AttemptOutcome) : SendRun :=
  queueSendGo st now draft_id outcomes (getDraft st draft_id none)

def sendApprovedGo (st : Store) (now : PyDateTime) (draft_id : String)
    (auto_approve : Bool) (decided_at : PyDateTime)
    (outcomes : Nat → AttemptOutcome) : Option EmailDraft → Except String SendRun
  | none => .ok (errorRun st draft_id "Draft not found")
  | some draft =>
    let step : Except String (Store × EmailDraft) :=
      if auto_approve ∧ draft.status = DraftStatus.pending_approval then
        processDecision st now
          { draft_id := draft_id, user_id := "system", approved := true,
            feedback := some "Auto-approved by system",
            decided_at := decided_at, modifications_requested := none }
      else .ok (st, draft)
    match step with
    | .error e => .error e
    | .ok (st1, draft1) =>
      if draft1.status ≠ DraftStatus.approved then
        .ok (errorRun st1 draft_id "Draft must be approved before sending")
      else
        .ok (queueSend st1 now draft_id outcomes)

/-- `SendWorker.send_approved_draft`. -/
def sendApprovedDraft (st : Store) (now : PyDateTime) (draft_id : String)
    (auto_approve : Bool) (decided_at : PyDateTime)
    (outcomes : Nat → AttemptOutcome) : Except String SendRun :=
  sendApprovedGo st now draft_id auto_approve decided_at outcomes
    (getDraft st draft_id none)

/-! ### Safety guard (src/backend/email_agent/safety_guard.py)

The three `SENSITIVE_PATTERNS` regexes are implemented as explicit scanners
over character lists with Python `\b` word-boundary semantics; only whether a
pattern occurs matters downstream (the source interpolates the occurrence
count into the flag text, which no caller inspects). -/

def listStarts : List Char → List Char → Bool
  | [], _ => true
  | _ :: _, [] => false
  | n :: ns, h :: hs => n = h && listStarts ns hs

def listHas (n : List Char) : List Char → Bool
  | [] => listStarts n []
  | c :: t => listStarts n (c :: t) || listHas n t

/-- Python `needle in hay` on strings. -/
def strContains (hay needle : String) : Bool := listHas needle.data hay.data

def lowerStr (s : String) : String := String.mk (s.data.map Char.toLower)

/-- Python `str.isupper`: at least one cased character and no lowercase one
(ASCII treatment). -/
def pyIsUpper (s : String) : Bool :=
  s.data.any (fun c => c.isUpper || c.isLower) && s.data.all (fun c => !c.isLower)

/-- Python regex `\w` (ASCII). -/
def isWordCh (c : Char) : Bool := c.isAlphanum || c = '_'

def prevNonWord : Option Char → Bool
  | none => true
  | some c => !isWordCh c

/-- Word boundary after a match: end of input or a non-word character. -/
def nonWordAt : List Char → Bool
  | [] => true
  | c :: _ => !isWordCh c

/-- Consume exactly `n` digits. -/
def takeDigits : Nat → List Char → Option (List Char)
  | 0, cs => some cs
  | _ + 1, [] => none
  | n + 1, c :: cs => if c.isDigit then takeDigits n cs else none

/-- Match of `\b\d{3}-\d{2}-\d{4}\b` at the current position (the leading
boundary is checked by the scanner). -/
def ssnHere (cs : List Char) : Bool :=
  match takeDigits 3 cs with
  | some ( '-' :: r1) =>
    match takeDigits 2 r1 with
    | some ( '-' :: r2) =>
      match takeDigits 4 r2 with
      | some r3 => nonWordAt r3
      | _ => false
    | _ => false
  | _ => false

/-- The `[- ]?\d{4}` repetitions of the credit-card pattern, with both
branches of the optional separator tried (regex backtracking). -/
def ccGroups : Nat → List Char → Bool
  | 0, rest => nonWordAt rest
  | k + 1, rest =>
    (match rest with
     | c :: r1 =>
       if c = '-' || c = ' ' then
         match takeDigits 4 r1 with
         | some r2 => ccGroups k r2
         | none => false
       else false
     | [] => false) ||
    (match takeDigits 4 rest with
     | some r2 => ccGroups k r2
     | none => false)

/-- Match of `\b\d{4}[- ]?\d{4}[- ]?\d{4}[- ]?\d{4}\b` at the position. -/
def ccHere (cs : List Char) : Bool :=
  match takeDigits 4 cs with
  | some rest => ccGroups 3 rest
  | none => false

/-- Case-insensitive literal match, returning the rest. -/
def matchLitCI : List Char → List Char → Option (List Char)
  | [], cs => some cs
  | _ :: _, [] => none
  | k :: ks, c :: cs => if c.toLower = k then matchLitCI ks cs else none

/-- Python regex `[\s:=]` (ASCII whitespace). -/
def isSepCh (c : Char) : Bool :=
  c = ' ' || c = '\t' || c = '\n' || c = '\r' || c.toNat = 11 || c.toNat = 12 ||
  c = ':' || c = '='

/-- Character class `[\w!@#$%^&*]`. -/
def isPwdBodyCh (c : Char) : Bool :=
  isWordCh c || [ '!', '@', '#', '$', '%', '^', '&', '*'].contains c

/-- One-or-more characters of a class (classes here are disjoint from what
follows, so greediness does not matter). -/
def takeSome (p : Char → Bool) : List Char → Option (List Char)
  | [] => none
  | c :: rest => if p c then some (rest.dropWhile p) else none

/-- Match of `\b(password|pwd|passwd)[\s:=]+[\w!@#$%^&*]+` (IGNORECASE) at
the position. -/
def pwdHere (cs : List Char) : Bool :=
  let tryKw : String → Bool := fun kw =>
    match matchLitCI kw.data cs with
    | some r1 =>
      match takeSome isSepCh r1 with
      | some r2 =>
        match r2 with
        | c :: _ => isPwdBodyCh c
        | [] => false
      | none => false
    | none => false
  tryKw "password" || tryKw "pwd" || tryKw "passwd"

/-- Scan every position, enforcing the pattern's leading word boundary. -/
def scanFound (here : List Char → Bool) : Option Char → List Char → Bool
  | _, [] => false
  | prev, c :: rest =>
    (prevNonWord prev && here (c :: rest)) || scanFound here (some c) rest

def ssnFound (s : String) : Bool := scanFound ssnHere none s.data

def ccFound (s : String) : Bool := scanFound ccHere none s.data

def pwdFound (s : String) : Bool := scanFound pwdHere none s.data

/-- Result of one `_check_*` helper: `{passed, flags, recommendations}`. -/
structure CheckOut where
  passed : Bool
  flags : List String
  recommendations : List String
deriving DecidableEq, Repr

def TOXIC_KEYWORDS : List String :=
  ["hate", "kill", "die", "stupid", "idiot", "moron", "damn", "hell", "crap",
   "shut up"]

def BLOCKED_DOMAINS : List String := ["example.com", "test.com", "spam.com"]

/-- `SafetyGuard._check_pii`. -/
def piiCheck (strict : Bool) (d : EmailDraft) : CheckOut :=
  let combined := d.subject ++ " " ++ d.body
  let flags :=
    (if ssnFound combined then ["Potential SSN detected"] else []) ++
    (if ccFound combined then ["Potential CREDIT_CARD detected"] else []) ++
    (if pwdFound combined then ["Potential PASSWORD detected"] else [])
  let recs :=
    (if ssnFound combined then ["Review and remove SSN before sending"] else []) ++
    (if ccFound combined then ["Review and remove CREDIT_CARD before sending"] else []) ++
    (if pwdFound combined then ["Review and remove PASSWORD before sending"] else [])
  { passed := flags.isEmpty || !strict, flags := flags, recommendations := recs }

/-- `SafetyGuard._check_toxic_content`. -/
def toxicCheck (strict : Bool) (d : EmailDraft) : CheckOut :=
  let combined := lowerStr (d.subject ++ " " ++ d.body)
  let found := TOXIC_KEYWORDS.filter (fun w => strContains combined w)
  let flags :=
    (if found.isEmpty then []
     else ["Potentially inappropriate language detected"]) ++
    (if pyIsUpper d.subject && decide (10 < d.subject.length) then
      ["Subject line in ALL CAPS may appear aggressive"] else [])
  let recs :=
    (if found.isEmpty then []
     else ["Review tone and language for professionalism"]) ++
    (if pyIsUpper d.subject && decide (10 < d.subject.length) then
      ["Consider using title case for subject"] else [])
  { passed := flags.isEmpty || !strict, flags := flags, recommendations := recs }

def isClassA (c : Char) : Bool :=
  c.isAlpha || c.isDigit || [ '.', '_', '%', '+', '-'].contains c

def isClassB (c : Char) : Bool :=
  c.isAlpha || c.isDigit || c = '.' || c = '-'

def stripTrailingNewline (cs : List Char) : List Char :=
  match cs.getLast? with
  | some c => if c = '\n' then cs.dropLast else cs
  | none => cs

/-- Domain part of `[a-zA-Z0-9.-]+\.[a-zA-Z]{2,}$`: everything after the last
dot is the 2+-letter TLD and everything before it a nonempty class-B run
(the end anchor forces the matched dot to be the last one). -/
def emailDomainOk (rest : List Char) : Bool :=
  let rev := rest.reverse
  let tld := rev.takeWhile (fun c => c ≠ '.')
  match rev.drop tld.length with
  | '.' :: brev =>
    decide (2 ≤ tld.length) && tld.all Char.isAlpha && !brev.isEmpty &&
      brev.all isClassB
  | _ => false

/-- `SafetyGuard._is_valid_email`:
`re.match(r'^[a-zA-Z0-9._%+-]+@[a-zA-Z0-9.-]+\.[a-zA-Z]{2,}$', email)`
(the `$` anchor also accepts one trailing newline). -/
def validEmail (s : String) : Bool :=
  let cs := stripTrailingNewline s.data
  let la := cs.takeWhile isClassA
  if la.isEmpty then false
  else
    match cs.drop la.length with
    | c :: rest => if c = '@' then emailDomainOk rest else false
    | [] => false

def consHeadCh (c : Char) : List (List Char) → List (List Char)
  | [] => [[c]]
  | g :: gs => (c :: g) :: gs

def splitOnChar (sep : Char) : List Char → List (List Char)
  | [] => [[]]
  | c :: rest =>
    if c = sep then [] :: splitOnChar sep rest
    else consHeadCh c (splitOnChar sep rest)

/-- `draft.to.split('@')[-1] if '@' in draft.to else ''`. -/
def domainOf (s : String) : String :=
  if hasAt s then String.mk (((splitOnChar '@' s.data).getLast?).getD [])
  else ""

/-- `SafetyGuard._check_recipients`. -/
def recipientCheck (d : EmailDraft) : CheckOut :=
  if !validEmail d.«to» then
    { passed := false, flags := ["Invalid recipient email"],
      recommendations := ["Provide a valid recipient email"] }
  else
    let blocked := BLOCKED_DOMAINS.contains (domainOf d.«to»)
    let ccBad := (d.cc.getD []).filter (fun e => !validEmail e)
    let bccBad := (d.bcc.getD []).filter (fun e => !validEmail e)
    let total := 1 + (d.cc.getD []).length + (d.bcc.getD []).length
    let flags :=
      (if blocked then ["Blocked domain"] else []) ++
      ccBad.map (fun _ => "Invalid CC email") ++
      bccBad.map (fun _ => "Invalid BCC email") ++
      (if 10 < total then ["Large recipient count"] else [])
    let recs :=
      (if blocked then ["Cannot send to blocked domain"] else []) ++
      (if 10 < total then ["Consider using a mailing list for bulk emails"] else [])
    { passed :=
        (flags.filter (fun f =>
          strContains f "Invalid" || strContains f "Blocked")).isEmpty
      flags := flags, recommendations := recs }

/-- `SafetyGuard._check_content_length`: advisory only, never blocks. -/
def lengthCheck (d : EmailDraft) : CheckOut :=
  let n := d.body.length
  let flags :=
    if n < 10 then ["Email body is very short"]
    else if 5000 < n then ["Email body is very long"]
    else []
  let recs :=
    if n < 10 then ["Consider adding more context to your message"]
    else if 5000 < n then
      ["Consider breaking into multiple emails or attaching a document"]
    else []
  { passed := true, flags := flags, recommendations := recs }

def SPAM_WORDS : List String := ["free", "click here", "act now", "$$$", "winner"]

def pySpace (c : Char) : Bool :=
  c = ' ' || c = '\t' || c = '\n' || c = '\r' || c.toNat = 11 || c.toNat = 12

/-- Python `str.strip()` (ASCII whitespace). -/
def pyStrip (s : String) : String :=
  String.mk (((s.data.dropWhile pySpace).reverse.dropWhile pySpace).reverse)

/-- `SafetyGuard._check_subject`. -/
def subjectCheck (d : EmailDraft) : CheckOut :=
  if (pyStrip d.subject).length = 0 then
    { passed := false, flags := ["Subject line is empty"],
      recommendations := ["Add a descriptive subject line"] }
  else
    let foundSpam := SPAM_WORDS.filter (fun w => strContains (lowerStr d.subject) w)
    let flags :=
      (if d.subject.length < 5 then ["Subject line is very short"]
       else if 100 < d.subject.length then ["Subject line is very long"]
       else []) ++
      (if foundSpam.isEmpty then [] else ["Subject contains spam-like words"])
    let recs :=
      (if d.subject.length < 5 then ["Consider a more descriptive subject"]
       else if 100 < d.subject.length then
        ["Shorten subject line for better readability"]
       else []) ++
      (if foundSpam.isEmpty then [] else ["Avoid spam trigger words in subject"])
    { passed := !(d.subject = "") && decide (0 < (pyStrip d.subject).length)
      flags := flags, recommendations := recs }

/-- The `checks` dictionary of `check_draft` (fixed keys). -/
structure ChecksMap where
  pii_check : Bool
  toxic_check : Bool
  recipient_check : Bool
  length_check : Bool
  subject_check : Bool
deriving DecidableEq, Repr

structure SafetyCheckResult where
  passed : Bool
  checks : ChecksMap
  flags : List String
  risk_level : String
  recommendations : List String
deriving DecidableEq, Repr

def failedCount (c : ChecksMap) : Nat :=
  (if c.pii_check then 0 else 1) + (if c.toxic_check then 0 else 1) +
  (if c.recipient_check then 0 else 1) + (if c.length_check then 0 else 1) +
  (if c.subject_check then 0 else 1)

/-- `SafetyGuard._calculate_risk_level`. -/
def calculateRiskLevel (c : ChecksMap) (flags : List String) : String :=
  if 2 ≤ failedCount c ∨ 5 ≤ flags.length then "high"
  else if failedCount c = 1 ∨ 3 ≤ flags.length then "medium"
  else "low"

/-- `SafetyGuard.check_draft`. -/
def checkDraft (strict : Bool) (d : EmailDraft) : SafetyCheckResult :=
  let pii := piiCheck strict d
  let toxic := toxicCheck strict d
  let recip := recipientCheck d
  let lenC := lengthCheck d
  let subj := subjectCheck d
  let checks : ChecksMap :=
    ⟨pii.passed, toxic.passed, recip.passed, lenC.passed, subj.passed⟩
  let flags := pii.flags ++ toxic.flags ++ recip.flags ++ lenC.flags ++ subj.flags
  let recs := pii.recommendations ++ toxic.recommendations ++
    recip.recommendations ++ lenC.recommendations ++ subj.recommendations
  { passed := checks.pii_check && checks.toxic_check && checks.recipient_check &&
      checks.length_check && checks.subject_check
    checks := checks
    flags := flags
    risk_level := calculateRiskLevel checks flags
    recommendations := recs }

/-! ### Dynamic orchestrator plan construction
(src/backend/dynamic_orchestrator.py, `_analyze_request`)

The planner LLM returns `agents_to_invoke`; the orchestrator takes it as-is
and, unless `workflow_type = "no_action"`, appends keyword-detected agents
that are not already present.  There is no subset filtering, deduplication or
precedence re-sorting of the LLM list itself. -/

def registryAgents : List String :=
  ["calendar_agent", "notes_agent", "file_agent", "email_agent", "general_agent"]

def keywordMap : List (String × List String) :=
  [("email_agent",
    ["email", "mail", "inbox", "message", "unread", "gmail", "latest email",
     "recent email", "send email", "draft email", "compose"]),
   ("calendar_agent",
    ["calendar", "meeting", "schedule", "reschedule", "appointment", "event",
     "availability", "time slot", "book", "invite"]),
   ("file_agent",
    ["file", "document", "pdf", "docx", "ppt", "slide", "slides", "summarize",
     "extract", "analyze", "report"]),
   ("notes_agent",
    ["note", "notes", "notebook", "remember", "save this", "to-do", "todo",
     "task list", "minutes"]),
   ("general_agent",
    ["task", "todo", "to-do", "reminder", "question", "answer", "explain",
     "help me", "plan", "planning", "strategy", "goal", "how to", "what is",
     "why", "when", "where"])]

def detectedAgents (userRequest : String) : List String :=
  let lower := lowerStr userRequest
  (keywordMap.filter (fun p => p.2.any (fun kw => strContains lower kw))).map
    (fun p => p.1)

def addFallbacks (base detected : List String) : List String :=
  detected.foldl (fun acc a => if a ∈ acc then acc else acc ++ [a]) base

/-- The final `agents_to_invoke` list produced by `_analyze_request` from the
planner output `llmAgents`/`workflowType` and the raw user request. -/
def analyzePlanAgents (llmAgents : List String) (workflowType userRequest : String) :
    List String :=
  if workflowType = "no_action" then llmAgents
  else addFallbacks llmAgents (detectedAgents userRequest)

/-- Spec-side plan invariant (§4.10 and §8.4 of the spec, for claim C4):
plans are registry subsets without duplicates satisfying the three
precedence pairs. -/
def specPlanInvariant (P : List String) : Prop :=
  (∀ a ∈ P, a ∈ registryAgents) ∧ P.Nodup ∧
  (("file_agent" ∈ P ∧ "email_agent" ∈ P) →
    P.indexOf "file_agent" < P.indexOf "email_agent") ∧
  (("email_agent" ∈ P ∧ "calendar_agent" ∈ P) →
    P.indexOf "email_agent" < P.indexOf "calendar_agent") ∧
  (("file_agent" ∈ P ∧ "notes_agent" ∈ P) →
    P.indexOf "file_agent" < P.indexOf "notes_agent")

instance (P : List String) : Decidable (specPlanInvariant P) := by
  unfold specPlanInvariant
  infer_instance

/-! ### Orchestrator agent execution (`_execute_*_agent`)

Each wrapper is a function from the wrapped agent call's behavior (when it
would return or raise, and what) to the observable outcome at the graph
node: a recorded result (the loop proceeds to the next agent) or a
propagated exception (the graph run aborts).  `asyncio.wait_for` with budget
`T` delivers a `TimeoutError` instead of an outcome arriving after `T`. -/

structure AgentResult where
  status : String
  message : String
deriving DecidableEq, Repr

inductive AgentBehavior
  | completes (duration : Nat) (r : AgentResult)
  | raises (duration : Nat) (msg : String)
deriving DecidableEq, Repr

inductive ExecOutcome
  | recorded (r : AgentResult)
  | propagated (msg : String)
  | skipped
deriving DecidableEq, Repr

def errResult (m : String) : AgentResult := { status := "error", message := m }

/-- `_execute_calendar_agent`: `wait_for(..., timeout=60.0)` inside
`try/except TimeoutError/except Exception`. -/
def executeCalendarAgent (beh : AgentBehavior) : ExecOutcome :=
  match beh with
  | .completes dur r =>
    if 60 < dur then .recorded (errResult "Calendar agent timed out")
    else .recorded r
  | .raises dur msg =>
    if 60 < dur then .recorded (errResult "Calendar agent timed out")
    else .recorded (errResult ("Calendar agent failed: " ++ msg))

/-- `_execute_email_agent`: `wait_for(..., timeout=60.0)` with both handlers. -/
def executeEmailAgent (beh : AgentBehavior) : ExecOutcome :=
  match beh with
  | .completes dur r =>
    if 60 < dur then .recorded (errResult "Email agent timed out")
    else .recorded r
  | .raises dur msg =>
    if 60 < dur then .recorded (errResult "Email agent timed out")
    else .recorded (errResult ("Email agent failed: " ++ msg))

/-- `_execute_general_agent`: `wait_for(..., timeout=90.0)` with both
handlers. -/
def executeGeneralAgent (beh : AgentBehavior) : ExecOutcome :=
  match beh with
  | .completes dur r =>
    if 90 < dur then
      .recorded (errResult "General agent timed out - please try a simpler request")
    else .recorded r
  | .raises dur msg =>
    if 90 < dur then
      .recorded (errResult "General agent timed out - please try a simpler request")
    else .recorded (errResult ("General agent failed: " ++ msg))

/-- `_execute_notes_agent`: no `wait_for`, no `try/except` — the call is
awaited bare, so an exception escapes the node. -/
def executeNotesAgent (beh : AgentBehavior) : ExecOutcome :=
  match beh with
  | .completes _ r => .recorded r
  | .raises _ msg => .propagated msg

/-- Result-format adaptation `_execute_file_agent` applies to a successful
summarizer result. -/
def adaptFileResult (r : AgentResult) : AgentResult :=
  if r.status = "success" then
    { status := "success", message := "Advanced Document Analysis Complete" }
  else r

/-- `_execute_file_agent`: no `wait_for`, no `try/except`; a missing file
yields an inline error result. -/
def executeFileAgent (hasFile : Bool) (beh : AgentBehavior) : ExecOutcome :=
  if !hasFile then
    .recorded (errResult "No file content provided for analysis")
  else
    match beh with
    | .completes _ r => .recorded (adaptFileResult r)
    | .raises _ msg => .propagated msg

/-- `_execute_agent` dispatch (an unknown agent name is skipped). -/
def executeAgentFor (hasFile : Bool) (name : String) (beh : AgentBehavior) :
    ExecOutcome :=
  if name = "calendar_agent" then executeCalendarAgent beh
  else if name = "notes_agent" then executeNotesAgent beh
  else if name = "file_agent" then executeFileAgent hasFile beh
  else if name = "email_agent" then executeEmailAgent beh
  else if name = "general_agent" then executeGeneralAgent beh
  else .skipped

/-- The orchestrator's sequential execute/check-next loop: recorded results
accumulate in `agent_results` and execution moves to the next agent; a
propagated exception aborts the remaining plan (second component). -/
def runPlan (hasFile : Bool) :
    List (String × AgentBehavior) → List (String × AgentResult) × Option String
  | [] => ([], none)
  | (name, beh) :: rest =>
    match executeAgentFor hasFile name beh with
    | .recorded r =>
      let rs := runPlan hasFile rest
      ((name, r) :: rs.1, rs.2)
    | .skipped => runPlan hasFile rest
    | .propagated m => ([], some m)

/-! ### Calendar agent match-before-mutate
(src/backend/calendar_agent.py, the `update` and `delete` branches of
`process_request` — the two branches share this gate verbatim)

After listing up to 50 upcoming events, the agent asks the LLM for
`{matched_event_id, confidence}` and then checks only
`if not event_id or confidence < 0.5`; when that guard passes it calls the
connector `update_event`/`delete_event` with the returned id.  Confidence is
modelled as an exact rational (0.5 is float-exact). -/

structure CalEvent where
  id : String
  title : String
  start : String
  endTime : String
deriving DecidableEq, Repr

inductive MatchParse
  | parsed (matched_event_id : Option String) (confidence : ℚ)
  | parseFailure
deriving DecidableEq

structure MutateGate where
  status : String
  message : String
  mutationCalledWith : Option String
deriving DecidableEq, Repr

def calendarMatchGate (access_token : Option String) (event_query : String)
    (list_result : Option (List CalEvent)) (match_result : MatchParse) :
    MutateGate :=
  match access_token with
  | none =>
    ⟨"error", "Google Calendar access requires authentication", none⟩
  | some _ =>
    if event_query = "" then
      ⟨"error", "No event identifier provided", none⟩
    else
      match list_result with
      | none => ⟨"error", "No upcoming events found in calendar", none⟩
      | some events =>
        if events.isEmpty then
          ⟨"error", "No upcoming events found in calendar", none⟩
        else
          match match_result with
          | .parseFailure => ⟨"error", "Failed to match event", none⟩
          | .parsed idOpt conf =>
            if idOpt = none ∨ idOpt = some "" ∨ conf < 1/2 then
              ⟨"error", "Could not find a matching event", none⟩
            else ⟨"proceed", "", idOpt⟩

/-- Spec-side gate condition (§4.5 step 3, for claim C5): proceed only when
`confidence ≥ 0.5` and the matched id is one of the listed event ids. -/
def specMatchGateOk (events : List CalEvent) (idOpt : Option String) (conf : ℚ) :
    Prop :=
  (1/2 : ℚ) ≤ conf ∧ ∃ e ∈ events, some e.id = idOpt

/-! ### File summarizer output formatting
(src/backend/advanced_file_summarizer_agent.py, `_output_formatter`) -/

structure ChunkRec where
  chunk_id : Nat
  text : String
  length : Nat
  start_char : Nat
  end_char : Nat
  estimated_page : Option Nat
deriving DecidableEq, Repr

structure FSState where
  final_summary : String
  key_insights : List String
  extracted_text : String
  file_name : String
  summary_mode : String
  query_response : Option String
  chunks : List ChunkRec
deriving Repr

structure FSMetadata where
  file_name : String
  summary_mode : String
  original_text_length : Nat
  summary_length : Nat
  reduction_percentage : ℚ
  num_chunks : Nat
  num_insights : Nat
deriving Repr

/-- `round(x, 1)` (Python's float round-half-even differs from `round` on
exact halves only, which no claim depends on). -/
def round1 (q : ℚ) : ℚ := (round (10 * q) : ℤ) / 10

/-- `_output_formatter`'s metadata computation. -/
def outputFormatter (s : FSState) : FSMetadata :=
  let origLen := s.extracted_text.length
  let summLen := s.final_summary.length
  let reduction : ℚ :=
    if 0 < origLen then (((origLen : ℚ) - (summLen : ℚ)) / (origLen : ℚ)) * 100
    else 0
  { file_name := s.file_name
    summary_mode := s.summary_mode
    original_text_length := origLen
    summary_length := summLen
    reduction_percentage := round1 reduction
    num_chunks := s.chunks.length
    num_insights := s.key_insights.length }

/-- Failures among the four blocking checks (the spec's "individual checks"
of claim C6; the length check never fails, so this agrees with the source's
count over all five). -/
def failedFourCount (c : ChecksMap) : Nat :=
  (if c.pii_check then 0 else 1) + (if c.toxic_check then 0 else 1) +
  (if c.recipient_check then 0 else 1) + (if c.subject_check then 0 else 1)

/-- Spec-side per-agent execution contract (§4.10, claim C7): under a budget,
a timed-out or raising agent call yields a recorded synthetic error result
(so the plan continues). -/
def specAgentTimeoutContract (exec : AgentBehavior → ExecOutcome) (budget : Nat) :
    Prop :=
  (∀ dur r, budget < dur →
    ∃ e, exec (.completes dur r) = .recorded e ∧ e.status = "error") ∧
  (∀ dur msg,
    ∃ e, exec (.raises dur msg) = .recorded e ∧ e.status = "error")

/-- Every provider attempt fails (of whatever classification — the worker
never looks at the classification). -/
def failsAlways (outcomes : Nat → AttemptOutcome) : Prop :=
  ∀ k, ∃ kind msg, outcomes k = AttemptOutcome.fail kind msg

/-! ### Concrete fixtures used by witnesses and counterexamples -/

def wNow : PyDateTime := ⟨2025, 10, 24, 10, 0, 0, 123456⟩

def wLater : PyDateTime := ⟨2025, 10, 24, 11, 30, 5, 0⟩

/-- A validator-passing draft with a chosen id and status. -/
def mkTestDraft (i : String) (st : DraftStatus) : EmailDraft :=
  { id := i
    session_id := "session-1"
    user_id := some "u1"
    «to» := "bob@realmail.org"
    cc := some ["amy@realmail.org"]
    bcc := none
    subject := "Q4 review"
    body := "Hello Bob, the Q4 review notes are attached."
    tone := EmailTone.professional
    priority := EmailPriority.medium
    status := st
    created_at := ⟨2025, 10, 24, 9, 30, 0, 0⟩
    updated_at := ⟨2025, 10, 24, 9, 30, 0, 0⟩
    approved_at := none
    sent_at := none
    conversation_context := none
    ai_reasoning := none
    gmail_message_id := none
    gmail_thread_id := none }

/-- All provider attempts fail permanently. -/
def permOutcomes : Nat → AttemptOutcome :=
  fun _ => AttemptOutcome.fail ErrorKind.permanent "Gmail API error: mailbox unavailable"

def sentStore : Store := (saveDraft [] wNow (mkTestDraft "d2" DraftStatus.sent)).1

def sentStoredDraft : EmailDraft := (saveDraft [] wNow (mkTestDraft "d2" DraftStatus.sent)).2

def apprStore : Store := (saveDraft [] wNow (mkTestDraft "d3" DraftStatus.approved)).1

def apprStoredDraft : EmailDraft := (saveDraft [] wNow (mkTestDraft "d3" DraftStatus.approved)).2

def approveDecision (i : String) : ApprovalDecision :=
  { draft_id := i, user_id := "u1", approved := true,
    feedback := some "Approved via agent", decided_at := wLater,
    modifications_requested := none }

/-- A draft whose body trips both the password pattern and a toxic keyword. -/
def flaggedDraft : EmailDraft :=
  { mkTestDraft "d5" DraftStatus.drafted with
      subject := "account details"
      body := "the password: hunter2 would be stupid to share" }

def evA : CalEvent :=
  ⟨"A", "Client Call", "2025-10-24T10:00:00Z", "2025-10-24T11:00:00Z"⟩

def c8FailState : FSState :=
  { final_summary := "ab"
    key_insights := []
    extracted_text := "a"
    file_name := "tiny.txt"
    summary_mode := "detailed"
    query_response := none
    chunks := [⟨0, "a", 1, 0, 1, none⟩] }

/-! #### Codec round-trip lemmas -/

theorem toDigitsRev_fuel (f g n : Nat) (hf : n ≤ f) (hg : n ≤ g) :
    toDigitsRev f n = toDigitsRev g n := by
  induction f using Nat.strong_induction_on generalizing n g with
  | _ f ih =>
    match n, f, g with
    | 0, f, g => cases f <;> cases g <;> rfl
    | n + 1, f + 1, g + 1 =>
      simp only [toDigitsRev]
      congr 1
      exact ih f (by omega) ((n + 1) / 10) (g := g) (by omega) (by omega)

theorem natDigits_succ (n : Nat) (h : 0 < n) :
    natDigits n = (n % 10) :: natDigits (n / 10) := by
  match n, h with
  | n + 1, _ =>
    show toDigitsRev (n + 1) (n + 1) = _
    simp only [toDigitsRev]
    congr 1
    exact toDigitsRev_fuel n ((n + 1) / 10) ((n + 1) / 10) (by omega) (by omega)

theorem digitsVal_natDigits (n : Nat) : digitsVal (natDigits n) = n := by
  induction n using Nat.strong_induction_on with
  | _ n ih =>
    rcases Nat.eq_zero_or_pos n with h | h
    · subst h; rfl
    · rw [natDigits_succ n h]
      simp only [digitsVal]
      rw [ih (n / 10) (by omega)]
      omega

theorem natDigits_lt (n : Nat) : ∀ d ∈ natDigits n, d < 10 := by
  induction n using Nat.strong_induction_on with
  | _ n ih =>
    rcases Nat.eq_zero_or_pos n with h | h
    · subst h; intro d hd; simp [natDigits, toDigitsRev] at hd
    · rw [natDigits_succ n h]
      intro d hd
      rcases List.mem_cons.mp hd with h1 | h1
      · subst h1; omega
      · exact ih (n / 10) (by omega) d h1

theorem padRender_mem (w n c : Nat) (hc : c ∈ padRender w n) :
    48 ≤ c ∧ c ≤ 57 := by
  rcases List.mem_append.mp hc with h | h
  · have := List.eq_of_mem_replicate h
    omega
  · rcases List.mem_map.mp h with ⟨d, hd, rfl⟩
    have hdd : d < 10 := by
      have := natDigits_lt n d (List.mem_reverse.mp hd)
      exact this
    omega

theorem foldl_parse_zeros (k : Nat) :
    (List.replicate k 48).foldl (fun a c => 10 * a + (c - 48)) 0 = 0 := by
  induction k with
  | zero => rfl
  | succ k ih => simpa [List.replicate_succ, List.foldl_cons] using ih

theorem foldl_parse_digits (ds : List Nat) (h : ∀ d ∈ ds, d < 10) (acc : Nat) :
    (ds.reverse.map (fun d => 48 + d)).foldl (fun a c => 10 * a + (c - 48)) acc
      = acc * 10 ^ ds.length + digitsVal ds := by
  induction ds generalizing acc with
  | nil => simp [digitsVal]
  | cons d t ih =>
    have hd : d < 10 := h d (List.mem_cons_self d t)
    have ht : ∀ x ∈ t, x < 10 := fun x hx => h x (List.mem_cons_of_mem d hx)
    simp only [List.reverse_cons, List.map_append, List.foldl_append, List.map_cons,
      List.map_nil, List.foldl_cons, List.foldl_nil]
    rw [ih ht acc]
    simp only [digitsVal, List.length_cons]
    ring_nf
    omega

theorem parse_padRender (w n : Nat) : parseNatCodes (padRender w n) = n := by
  unfold parseNatCodes padRender renderNat
  rw [List.foldl_append, foldl_parse_zeros]
  rw [foldl_parse_digits (natDigits n) (natDigits_lt n) 0]
  simp [digitsVal_natDigits]

theorem natDigits_ne_nil (n : Nat) (h : 0 < n) : natDigits n ≠ [] := by
  intro hc
  have hval := digitsVal_natDigits n
  rw [hc] at hval
  simp [digitsVal] at hval
  omega

theorem padRender_ne_nil (w n : Nat) (hw : 1 ≤ w) : padRender w n ≠ [] := by
  intro hcon
  have hlen := congrArg List.length hcon
  simp only [padRender, renderNat, List.length_append, List.length_replicate,
    List.length_map, List.length_reverse, List.length_nil] at hlen
  omega

theorem parseSeg_padRender (w n : Nat) (hw : 1 ≤ w) :
    parseSeg (padRender w n) = some n := by
  unfold parseSeg
  rw [if_neg (padRender_ne_nil w n hw)]
  have hall : (padRender w n).all isDigitCode = true := by
    rw [List.all_eq_true]
    intro c hc
    have := padRender_mem w n c hc
    simp [isDigitCode]
    omega
  rw [if_pos hall, parse_padRender]

theorem splitOnCode_cons (sep c : Nat) (rest : List Nat) :
    splitOnCode sep (c :: rest) =
      if c = sep then [] :: splitOnCode sep rest
      else consHead c (splitOnCode sep rest) := rfl

theorem splitOnCode_no_sep (sep : Nat) (xs : List Nat) (h : sep ∉ xs) :
    splitOnCode sep xs = [xs] := by
  induction xs with
  | nil => rfl
  | cons c t ih =>
    have hc : c ≠ sep := by intro hcon; exact h (hcon ▸ List.mem_cons_self c t)
    have ht : sep ∉ t := fun hx => h (List.mem_cons_of_mem c hx)
    rw [splitOnCode_cons, if_neg hc, ih ht]
    rfl

theorem splitOnCode_append_sep (sep : Nat) (xs ys : List Nat) (h : sep ∉ xs) :
    splitOnCode sep (xs ++ sep :: ys) = xs :: splitOnCode sep ys := by
  induction xs with
  | nil =>
    rw [List.nil_append, splitOnCode_cons, if_pos rfl]
  | cons c t ih =>
    have hc : c ≠ sep := by intro hcon; exact h (hcon ▸ List.mem_cons_self c t)
    have ht : sep ∉ t := fun hx => h (List.mem_cons_of_mem c hx)
    rw [List.cons_append, splitOnCode_cons, if_neg hc, ih ht]
    rfl

theorem sep_not_mem_padRender (sep w n : Nat) (hs : sep < 48 ∨ 57 < sep) :
    sep ∉ padRender w n := by
  intro hc
  have := padRender_mem w n sep hc
  omega

theorem mkValidDT_self (t : PyDateTime) (h : validDT t = true) :
    mkValidDT t.year t.month t.day t.hour t.minute t.second t.usec = some t := by
  have he : (⟨t.year, t.month, t.day, t.hour, t.minute, t.second, t.usec⟩ : PyDateTime) = t :=
    rfl
  unfold mkValidDT
  simp only [he, h, if_true]

theorem fromIso_isoFormat (t : PyDateTime) (h : validDT t = true) :
    fromIso (isoFormat t) = some t := by
  have husec : ∀ c ∈ usecPart t.usec, c = 46 ∨ (48 ≤ c ∧ c ≤ 57) := by
    intro c hc
    unfold usecPart at hc
    by_cases hu : t.usec = 0
    · rw [if_pos hu] at hc; simp at hc
    · rw [if_neg hu] at hc
      rcases List.mem_cons.mp hc with h1 | h1
      · left; exact h1
      · right; exact padRender_mem 6 t.usec c h1
  have hA : (84 : Nat) ∉
      (padRender 4 t.year ++ 45 :: (padRender 2 t.month ++ 45 :: padRender 2 t.day)) := by
    intro hc
    rcases List.mem_append.mp hc with h1 | h1
    · exact absurd (padRender_mem 4 t.year 84 h1) (by omega)
    rcases List.mem_cons.mp h1 with h2 | h2
    · omega
    rcases List.mem_append.mp h2 with h3 | h3
    · exact absurd (padRender_mem 2 t.month 84 h3) (by omega)
    rcases List.mem_cons.mp h3 with h4 | h4
    · omega
    · exact absurd (padRender_mem 2 t.day 84 h4) (by omega)
  have hB : (84 : Nat) ∉
      (padRender 2 t.hour ++ 58 :: (padRender 2 t.minute ++ 58 ::
        (padRender 2 t.second ++ usecPart t.usec))) := by
    intro hc
    rcases List.mem_append.mp hc with h1 | h1
    · exact absurd (padRender_mem 2 t.hour 84 h1) (by omega)
    rcases List.mem_cons.mp h1 with h2 | h2
    · omega
    rcases List.mem_append.mp h2 with h3 | h3
    · exact absurd (padRender_mem 2 t.minute 84 h3) (by omega)
    rcases List.mem_cons.mp h3 with h4 | h4
    · omega
    rcases List.mem_append.mp h4 with h5 | h5
    · exact absurd (padRender_mem 2 t.second 84 h5) (by omega)
    · rcases husec 84 h5 with h6 | h6 <;> omega
  have hsec58 : (58 : Nat) ∉ (padRender 2 t.second ++ usecPart t.usec) := by
    intro hc
    rcases List.mem_append.mp hc with h1 | h1
    · exact absurd (padRender_mem 2 t.second 58 h1) (by omega)
    · rcases husec 58 h1 with h2 | h2 <;> omega
  have hsplit84 : splitOnCode 84 (isoFormat t) =
      [padRender 4 t.year ++ 45 :: (padRender 2 t.month ++ 45 :: padRender 2 t.day),
        padRender 2 t.hour ++ 58 :: (padRender 2 t.minute ++ 58 ::
          (padRender 2 t.second ++ usecPart t.usec))] := by
    unfold isoFormat
    rw [splitOnCode_append_sep 84 _ _ hA, splitOnCode_no_sep 84 _ hB]
  have hsplit45 : splitOnCode 45
      (padRender 4 t.year ++ 45 :: (padRender 2 t.month ++ 45 :: padRender 2 t.day)) =
      [padRender 4 t.year, padRender 2 t.month, padRender 2 t.day] := by
    rw [splitOnCode_append_sep 45 _ _ (sep_not_mem_padRender 45 4 t.year (by omega)),
      splitOnCode_append_sep 45 _ _ (sep_not_mem_padRender 45 2 t.month (by omega)),
      splitOnCode_no_sep 45 _ (sep_not_mem_padRender 45 2 t.day (by omega))]
  have hsplit58 : splitOnCode 58
      (padRender 2 t.hour ++ 58 :: (padRender 2 t.minute ++ 58 ::
        (padRender 2 t.second ++ usecPart t.usec))) =
      [padRender 2 t.hour, padRender 2 t.minute, padRender 2 t.second ++ usecPart t.usec] := by
    rw [splitOnCode_append_sep 58 _ _ (sep_not_mem_padRender 58 2 t.hour (by omega)),
      splitOnCode_append_sep 58 _ _ (sep_not_mem_padRender 58 2 t.minute (by omega)),
      splitOnCode_no_sep 58 _ hsec58]
  unfold fromIso
  rw [hsplit84]
  simp only [expect2, Option.some_bind]
  rw [hsplit45, hsplit58]
  simp only [expect3, Option.some_bind]
  by_cases hu : t.usec = 0
  · have hup : usecPart t.usec = [] := by unfold usecPart; rw [if_pos hu]
    have hsplit46 : splitOnCode 46 (padRender 2 t.second ++ usecPart t.usec) =
        [padRender 2 t.second] := by
      rw [hup, List.append_nil,
        splitOnCode_no_sep 46 _ (sep_not_mem_padRender 46 2 t.second (by omega))]
    rw [hsplit46]
    simp only [expectSec, Option.some_bind]
    unfold buildDT
    rw [parseSeg_padRender 4 t.year (by omega), parseSeg_padRender 2 t.month (by omega),
      parseSeg_padRender 2 t.day (by omega), parseSeg_padRender 2 t.hour (by omega),
      parseSeg_padRender 2 t.minute (by omega), parseSeg_padRender 2 t.second (by omega)]
    simp only [Option.some_bind, usecVal]
    rw [← hu]
    exact mkValidDT_self t h
  · have hup : usecPart t.usec = 46 :: padRender 6 t.usec := by
      unfold usecPart; rw [if_neg hu]
    have hsplit46 : splitOnCode 46 (padRender 2 t.second ++ usecPart t.usec) =
        [padRender 2 t.second, padRender 6 t.usec] := by
      rw [hup, splitOnCode_append_sep 46 _ _ (sep_not_mem_padRender 46 2 t.second (by omega)),
        splitOnCode_no_sep 46 _ (sep_not_mem_padRender 46 6 t.usec (by omega))]
    rw [hsplit46]
    simp only [expectSec, Option.some_bind]
    unfold buildDT
    rw [parseSeg_padRender 4 t.year (by omega), parseSeg_padRender 2 t.month (by omega),
      parseSeg_padRender 2 t.day (by omega), parseSeg_padRender 2 t.hour (by omega),
      parseSeg_padRender 2 t.minute (by omega), parseSeg_padRender 2 t.second (by omega)]
    simp only [Option.some_bind, usecVal]
    rw [parseSeg_padRender 6 t.usec (by omega)]
    simp only [Option.some_bind]
    exact mkValidDT_self t h

/-! ### Serialization round-trip lemmas -/

theorem statusOfValue_round (st : DraftStatus) :
    statusOfValue (statusValue st) = some st := by
  cases st <;> rfl

theorem toneOfValue_round (t : EmailTone) :
    toneOfValue (toneValue t) = some t := by
  cases t <;> rfl

theorem priorityOfValue_round (p : EmailPriority) :
    priorityOfValue (priorityValue p) = some p := by
  cases p <;> rfl

theorem optParseIso_round (o : Option PyDateTime) (h : optValidDT o = true) :
    optParseIso (o.map isoFormat) = some o := by
  cases o with
  | none => rfl
  | some t =>
    have ht : validDT t = true := h
    simp [optParseIso, fromIso_isoFormat t ht]

theorem fromDict_toDict (d : EmailDraft) (h : validDraft d = true) :
    fromDict (toDict d) = some d := by
  simp only [validDraft, Bool.and_eq_true] at h
  obtain ⟨⟨⟨⟨⟨⟨hca, hua⟩, haa⟩, hsa⟩, hto⟩, hcc⟩, hbcc⟩ := h
  unfold fromDict toDict
  dsimp only
  rw [fromIso_isoFormat _ hca, fromIso_isoFormat _ hua,
    optParseIso_round _ haa, optParseIso_round _ hsa,
    statusOfValue_round, toneOfValue_round, priorityOfValue_round]
  simp only [Option.some_bind]
  rw [if_pos ⟨hto, hcc, hbcc⟩]

theorem validDraft_setUpdated (d : EmailDraft) (now : PyDateTime)
    (hd : validDraft d = true) (hn : validDT now = true) :
    validDraft { d with updated_at := now } = true := by
  simp only [validDraft, Bool.and_eq_true] at hd ⊢
  obtain ⟨⟨⟨⟨⟨⟨hca, _⟩, haa⟩, hsa⟩, hto⟩, hcc⟩, hbcc⟩ := hd
  exact ⟨⟨⟨⟨⟨⟨hca, hn⟩, haa⟩, hsa⟩, hto⟩, hcc⟩, hbcc⟩

/-! ### Claim theorems -/

/-- C9: for every email draft `d`, `save_draft d` followed by `get_draft`
with `d`'s id and session returns a draft equal to the value `save_draft`
persisted (`d` with its `updated_at` stamped); the JSON round trip through
`to_dict`/`from_dict` loses no field. -/
theorem c9_draft_roundtrip (st : Store) (now : PyDateTime) (d : EmailDraft)
    (hd : validDraft d = true) (hn : validDT now = true) :
    (saveDraft st now d).2 = { d with updated_at := now } ∧
    getDraft (saveDraft st now d).1 d.id (some d.session_id) =
      some ((saveDraft st now d).2) := by
  refine ⟨rfl, ?_⟩
  show (storeGet ((((d.session_id, d.id), toDict { d with updated_at := now })) :: st)
      (d.session_id, d.id)).bind fromDict = _
  unfold storeGet
  rw [if_pos rfl]
  simp only [Option.some_bind]
  exact fromDict_toDict _ (validDraft_setUpdated d now hd hn)

/-- C9 witness: the round trip at a concrete draft and timestamp. -/
theorem c9_draft_roundtrip_witness :
    validDraft (mkTestDraft "d1" DraftStatus.drafted) = true ∧
    validDT wNow = true ∧
    getDraft (saveDraft [] wNow (mkTestDraft "d1" DraftStatus.drafted)).1
        (mkTestDraft "d1" DraftStatus.drafted).id
        (some (mkTestDraft "d1" DraftStatus.drafted).session_id) =
      some ((saveDraft [] wNow (mkTestDraft "d1" DraftStatus.drafted)).2) :=
  ⟨by decide, by decide,
    (c9_draft_roundtrip [] wNow (mkTestDraft "d1" DraftStatus.drafted)
      (by decide) (by decide)).2⟩

/-- C6: for every safety check run on a draft (in either strictness mode),
the overall `passed` flag is the conjunction of the pii, toxic, recipients
and subject checks (length never blocks), and the risk level is high when at
least 2 checks failed or at least 5 flags were raised, else medium when
exactly 1 check failed or at least 3 flags were raised, else low. -/
theorem c6_safety_aggregation (strict : Bool) (d : EmailDraft) :
    (checkDraft strict d).passed =
      ((checkDraft strict d).checks.pii_check &&
       (checkDraft strict d).checks.toxic_check &&
       (checkDraft strict d).checks.recipient_check &&
       (checkDraft strict d).checks.subject_check) ∧
    (checkDraft strict d).checks.length_check = true ∧
    (checkDraft strict d).risk_level =
      (if 2 ≤ failedFourCount (checkDraft strict d).checks ∨
          5 ≤ (checkDraft strict d).flags.length then "high"
       else if failedFourCount (checkDraft strict d).checks = 1 ∨
          3 ≤ (checkDraft strict d).flags.length then "medium"
       else "low") := by
  unfold checkDraft
  dsimp only
  refine ⟨?_, rfl, ?_⟩
  · rw [show (lengthCheck d).passed = true from rfl]
    cases (piiCheck strict d).passed <;> cases (toxicCheck strict d).passed <;>
      cases (recipientCheck d).passed <;> cases (subjectCheck d).passed <;> rfl
  · unfold calculateRiskLevel failedCount failedFourCount
    dsimp only
    rw [show (lengthCheck d).passed = true from rfl]
    simp

/-- C10: with the default configuration `strict_mode = False` (the global
`safety_guard` instance), the pii and toxic checks pass for every draft —
detections are recorded only as flags, as the concrete flagged draft shows —
so the overall `passed` flag is exactly the recipients check and the subject
check. -/
theorem c10_default_guard_lenient :
    (∀ d : EmailDraft,
      (piiCheck false d).passed = true ∧
      (toxicCheck false d).passed = true ∧
      (checkDraft false d).passed =
        ((recipientCheck d).passed && (subjectCheck d).passed)) ∧
    (piiCheck false flaggedDraft).flags ≠ [] ∧
    (toxicCheck false flaggedDraft).flags ≠ [] := by
  refine ⟨fun d => ⟨?_, ?_, ?_⟩, ?_, ?_⟩
  · simp [piiCheck]
  · simp [toxicCheck]
  · unfold checkDraft
    dsimp only
    rw [show (piiCheck false d).passed = true by simp [piiCheck]]
    rw [show (toxicCheck false d).passed = true by simp [toxicCheck]]
    rw [show (lengthCheck d).passed = true from rfl]
    simp
  · decide
  · decide

/-- C8 (amended): the final metadata reports `num_chunks` equal to the
number of chunks produced and `original_text_length`/`summary_length` as the
exact lengths of the extracted text and final summary; nothing bounds
`summary_length` by `original_length`. -/
theorem c8_metadata_amended (s : FSState) :
    (outputFormatter s).num_chunks = s.chunks.length ∧
    (outputFormatter s).original_text_length = s.extracted_text.length ∧
    (outputFormatter s).summary_length = s.final_summary.length :=
  ⟨rfl, rfl, rfl⟩

/-- C8 counterexample: a run whose generated summary is longer than the
extracted text reaches output formatting with `summary_length = 2 >
1 = original_length` and a negative `reduction_percentage`, refuting
`summary_length ≤ original_length`. -/
theorem c8_counterexample :
    (outputFormatter c8FailState).num_chunks = c8FailState.chunks.length ∧
    (outputFormatter c8FailState).summary_length = 2 ∧
    (outputFormatter c8FailState).original_text_length = 1 ∧
    (outputFormatter c8FailState).reduction_percentage < 0 := by
  refine ⟨rfl, rfl, rfl, ?_⟩
  have h1 : (outputFormatter c8FailState).reduction_percentage =
      round1 ((((1 : ℚ) - 2) / 1) * 100) := rfl
  rw [h1]
  have h2 : (((1 : ℚ) - 2) / 1) * 100 = -100 := by norm_num
  rw [h2]
  unfold round1
  have h3 : (10 : ℚ) * (-100) = ((-1000 : ℤ) : ℚ) := by norm_num
  rw [h3, round_intCast]
  norm_num

theorem addFallbacks_extends (ds base : List String) :
    base <+: addFallbacks base ds := by
  induction ds generalizing base with
  | nil => exact List.prefix_rfl
  | cons a t ih =>
    have hstep : addFallbacks base (a :: t) =
        addFallbacks (if a ∈ base then base else base ++ [a]) t := rfl
    rw [hstep]
    refine List.IsPrefix.trans ?_ (ih (if a ∈ base then base else base ++ [a]))
    by_cases hmem : a ∈ base
    · rw [if_pos hmem]
    · rw [if_neg hmem]
      exact List.prefix_append base [a]

theorem addFallbacks_mem (ds base : List String) (x : String)
    (hx : x ∈ addFallbacks base ds) : x ∈ base ∨ x ∈ ds := by
  induction ds generalizing base with
  | nil => exact .inl hx
  | cons a t ih =>
    have hx2 : x ∈ addFallbacks (if a ∈ base then base else base ++ [a]) t := hx
    rcases ih _ hx2 with h1 | h1
    · by_cases hmem : a ∈ base
      · rw [if_pos hmem] at h1
        exact .inl h1
      · rw [if_neg hmem] at h1
        rcases List.mem_append.mp h1 with h2 | h2
        · exact .inl h2
        · simp only [List.mem_singleton] at h2
          exact .inr (h2 ▸ List.mem_cons_self a t)
    · exact .inr (List.mem_cons_of_mem a h1)

theorem detectedAgents_sub (req a : String) (h : a ∈ detectedAgents req) :
    a ∈ registryAgents := by
  unfold detectedAgents at h
  rcases List.mem_map.mp h with ⟨p, hp, rfl⟩
  have hp1 : p ∈ keywordMap := (List.mem_filter.mp hp).1
  have hall : ∀ q ∈ keywordMap, q.1 ∈ registryAgents := by decide
  exact hall p hp1

/-- C4 (amended): `_analyze_request` performs no enforcement on the
planner's `agents_to_invoke` list — the final plan always extends it
verbatim as a prefix, and every appended element is a keyword-fallback agent
drawn from the registry.  No subset filtering, deduplication or precedence
re-sorting of the planner's portion occurs. -/
theorem c4_plan_construction_amended (llm : List String) (wt req : String) :
    llm <+: analyzePlanAgents llm wt req ∧
    ∀ a ∈ analyzePlanAgents llm wt req, a ∈ llm ∨ a ∈ registryAgents := by
  unfold analyzePlanAgents
  by_cases h : wt = "no_action"
  · rw [if_pos h]
    exact ⟨List.prefix_rfl, fun a ha => .inl ha⟩
  · rw [if_neg h]
    refine ⟨addFallbacks_extends _ _, fun a ha => ?_⟩
    rcases addFallbacks_mem _ _ a ha with h1 | h1
    · exact .inl h1
    · exact .inr (detectedAgents_sub req a h1)

/-- C4 witness: the amended characterization at a concrete plan. -/
theorem c4_plan_construction_amended_witness :
    (["calendar_agent"] <+:
      analyzePlanAgents ["calendar_agent"] "multi_step" "hello there") ∧
    ("calendar_agent" ∈ (["calendar_agent"] : List String) ∨
      "calendar_agent" ∈ registryAgents) :=
  ⟨(c4_plan_construction_amended ["calendar_agent"] "multi_step" "hello there").1,
   (c4_plan_construction_amended ["calendar_agent"] "multi_step" "hello there").2
     "calendar_agent" (by decide)⟩

/-- C4 counterexample: for a planner output `["email_agent", "file_agent"]`
on a request with no agent keywords, the orchestrator returns the list
unsorted (violating the file-before-email precedence pair), and duplicate or
unknown planner entries are preserved as well — refuting the claimed
subset/no-duplicates/precedence enforcement. -/
theorem c4_counterexample :
    analyzePlanAgents ["email_agent", "file_agent"] "multi_step" "hello there" =
      ["email_agent", "file_agent"] ∧
    ¬ specPlanInvariant
        (analyzePlanAgents ["email_agent", "file_agent"] "multi_step" "hello there") ∧
    analyzePlanAgents ["bogus_agent", "email_agent", "email_agent"] "no_action" "hi" =
      ["bogus_agent", "email_agent", "email_agent"] := by
  refine ⟨by decide, by decide, by decide⟩

theorem calendarMatchGate_parsed (tok q : String) (evs : List CalEvent)
    (idOpt : Option String) (conf : ℚ) (hq : q ≠ "") (he : evs.isEmpty ≠ true) :
    calendarMatchGate (some tok) q (some evs) (.parsed idOpt conf) =
      if idOpt = none ∨ idOpt = some "" ∨ conf < 1/2 then
        ⟨"error", "Could not find a matching event", none⟩
      else ⟨"proceed", "", idOpt⟩ := by
  unfold calendarMatchGate
  dsimp only
  rw [if_neg hq, if_neg he]

/-- C5 (amended): for calendar update/delete, once authentication, a
non-empty query and a non-empty listing hold, the agent proceeds to the
connector mutation exactly when the LLM-returned id is non-null/non-empty
and the confidence is at least 0.5 — the returned id is passed through
without checking membership in the listed event ids; otherwise it returns a
status=error result and performs no mutation. -/
theorem c5_match_gate_amended (tok q : String) (evs : List CalEvent)
    (idOpt : Option String) (conf : ℚ) (hq : q ≠ "") (he : evs ≠ []) :
    ((idOpt = none ∨ idOpt = some "" ∨ conf < 1/2) →
      (calendarMatchGate (some tok) q (some evs) (.parsed idOpt conf)).status =
        "error" ∧
      (calendarMatchGate (some tok) q (some evs)
        (.parsed idOpt conf)).mutationCalledWith = none) ∧
    (¬(idOpt = none ∨ idOpt = some "" ∨ conf < 1/2) →
      (calendarMatchGate (some tok) q (some evs) (.parsed idOpt conf)).status =
        "proceed" ∧
      (calendarMatchGate (some tok) q (some evs)
        (.parsed idOpt conf)).mutationCalledWith = idOpt) := by
  have hee : evs.isEmpty ≠ true := by
    cases evs with
    | nil => exact absurd rfl he
    | cons a t => simp
  rw [calendarMatchGate_parsed tok q evs idOpt conf hq hee]
  constructor
  · intro hcond
    rw [if_pos hcond]
    exact ⟨rfl, rfl⟩
  · intro hcond
    rw [if_neg hcond]
    exact ⟨rfl, rfl⟩

/-- C5 witness: a concrete in-list match with confidence 0.9 proceeds to the
mutation with the matched id. -/
theorem c5_match_gate_amended_witness :
    ("client call" : String) ≠ "" ∧ ([evA] : List CalEvent) ≠ [] ∧
    ¬((some "A" : Option String) = none ∨ (some "A" : Option String) = some "" ∨
        (9 / 10 : ℚ) < 1 / 2) ∧
    (calendarMatchGate (some "tok") "client call" (some [evA])
      (.parsed (some "A") (9 / 10))).mutationCalledWith = some "A" := by
  have h1 : ("client call" : String) ≠ "" := by decide
  have h2 : ([evA] : List CalEvent) ≠ [] := by decide
  have h3 : ¬((some "A" : Option String) = none ∨
      (some "A" : Option String) = some "" ∨ (9 / 10 : ℚ) < 1 / 2) := by
    intro h
    rcases h with h | h | h
    · exact Option.noConfusion h
    · have : ("A" : String) = "" := Option.some.inj h
      exact absurd this (by decide)
    · norm_num at h
  exact ⟨h1, h2, h3,
    ((c5_match_gate_amended "tok" "client call" [evA] (some "A") (9 / 10) h1 h2).2
      h3).2⟩

/-- C5 counterexample: the LLM returns a confident id `"Z"` that is not
among the listed event ids, yet the agent proceeds and calls the connector
mutation with `"Z"` — refuting the claimed `matched_id ∈ listed_ids`
requirement. -/
theorem c5_counterexample :
    (calendarMatchGate (some "tok") "client call" (some [evA])
      (.parsed (some "Z") (9 / 10))).status = "proceed" ∧
    (calendarMatchGate (some "tok") "client call" (some [evA])
      (.parsed (some "Z") (9 / 10))).mutationCalledWith = some "Z" ∧
    ¬ specMatchGateOk [evA] (some "Z") (9 / 10) := by
  have hq : ("client call" : String) ≠ "" := by decide
  have hee : ([evA] : List CalEvent).isEmpty ≠ true := by decide
  have hcond : ¬((some "Z" : Option String) = none ∨
      (some "Z" : Option String) = some "" ∨ (9 / 10 : ℚ) < 1 / 2) := by
    intro h
    rcases h with h | h | h
    · exact Option.noConfusion h
    · have : ("Z" : String) = "" := Option.some.inj h
      exact absurd this (by decide)
    · norm_num at h
  rw [calendarMatchGate_parsed "tok" "client call" [evA] (some "Z") (9 / 10) hq hee,
    if_neg hcond]
  refine ⟨rfl, rfl, ?_⟩
  rintro ⟨-, e, he1, he2⟩
  have : e = evA := List.mem_singleton.mp he1
  rw [this] at he2
  have : ("A" : String) = "Z" := Option.some.inj he2
  exact absurd this (by decide)

/-- C7 (amended): the calendar and email agent invocations run under a 60 s
timeout and the general agent under 90 s, with timeouts and exceptions both
converted to recorded synthetic status=error results so the plan continues;
but the file and notes agent invocations run under no timeout at all and
have no exception handler — a raising file or notes agent propagates out of
the node instead of yielding an error slot. -/
theorem c7_agent_execution_amended :
    specAgentTimeoutContract executeCalendarAgent 60 ∧
    specAgentTimeoutContract executeEmailAgent 60 ∧
    specAgentTimeoutContract executeGeneralAgent 90 ∧
    (∀ dur msg, executeNotesAgent (.raises dur msg) = .propagated msg) ∧
    (∀ dur msg, executeFileAgent true (.raises dur msg) = .propagated msg) ∧
    (∀ dur r, executeNotesAgent (.completes dur r) = .recorded r) ∧
    (∀ dur r, executeFileAgent true (.completes dur r) =
      .recorded (adaptFileResult r)) ∧
    (∀ hf name beh rest r, executeAgentFor hf name beh = .recorded r →
      runPlan hf ((name, beh) :: rest) =
        ((name, r) :: (runPlan hf rest).1, (runPlan hf rest).2)) := by
  have hcalC : ∀ dur r, executeCalendarAgent (.completes dur r) =
      if 60 < dur then .recorded (errResult "Calendar agent timed out")
      else .recorded r := fun _ _ => rfl
  have hcalR : ∀ dur msg, executeCalendarAgent (.raises dur msg) =
      if 60 < dur then .recorded (errResult "Calendar agent timed out")
      else .recorded (errResult ("Calendar agent failed: " ++ msg)) := fun _ _ => rfl
  have hemC : ∀ dur r, executeEmailAgent (.completes dur r) =
      if 60 < dur then .recorded (errResult "Email agent timed out")
      else .recorded r := fun _ _ => rfl
  have hemR : ∀ dur msg, executeEmailAgent (.raises dur msg) =
      if 60 < dur then .recorded (errResult "Email agent timed out")
      else .recorded (errResult ("Email agent failed: " ++ msg)) := fun _ _ => rfl
  have hgenC : ∀ dur r, executeGeneralAgent (.completes dur r) =
      if 90 < dur then
        .recorded (errResult "General agent timed out - please try a simpler request")
      else .recorded r := fun _ _ => rfl
  have hgenR : ∀ dur msg, executeGeneralAgent (.raises dur msg) =
      if 90 < dur then
        .recorded (errResult "General agent timed out - please try a simpler request")
      else .recorded (errResult ("General agent failed: " ++ msg)) := fun _ _ => rfl
  refine ⟨⟨?_, ?_⟩, ⟨?_, ?_⟩, ⟨?_, ?_⟩, ?_, ?_, ?_, ?_, ?_⟩
  · intro dur r h
    refine ⟨errResult "Calendar agent timed out", ?_, rfl⟩
    rw [hcalC, if_pos h]
  · intro dur msg
    by_cases h : 60 < dur
    · exact ⟨errResult "Calendar agent timed out", by rw [hcalR, if_pos h], rfl⟩
    · exact ⟨errResult ("Calendar agent failed: " ++ msg),
        by rw [hcalR, if_neg h], rfl⟩
  · intro dur r h
    refine ⟨errResult "Email agent timed out", ?_, rfl⟩
    rw [hemC, if_pos h]
  · intro dur msg
    by_cases h : 60 < dur
    · exact ⟨errResult "Email agent timed out", by rw [hemR, if_pos h], rfl⟩
    · exact ⟨errResult ("Email agent failed: " ++ msg), by rw [hemR, if_neg h], rfl⟩
  · intro dur r h
    refine ⟨errResult "General agent timed out - please try a simpler request", ?_, rfl⟩
    rw [hgenC, if_pos h]
  · intro dur msg
    by_cases h : 90 < dur
    · exact ⟨errResult "General agent timed out - please try a simpler request",
        by rw [hgenR, if_pos h], rfl⟩
    · exact ⟨errResult ("General agent failed: " ++ msg), by rw [hgenR, if_neg h], rfl⟩
  · intro dur msg
    rfl
  · intro dur msg
    rfl
  · intro dur r
    rfl
  · intro dur r
    rfl
  · intro hf name beh rest r h
    have hrun : runPlan hf ((name, beh) :: rest) =
        match executeAgentFor hf name beh with
        | .recorded r => ((name, r) :: (runPlan hf rest).1, (runPlan hf rest).2)
        | .skipped => runPlan hf rest
        | .propagated m => ([], some m) := rfl
    rw [hrun, h]

/-- C7 amended witness: a 61-second calendar agent yields a recorded error
slot, and a raising calendar agent is recorded while the plan continues. -/
theorem c7_agent_execution_amended_witness :
    (∃ e, executeCalendarAgent (.completes 61 (errResult "x")) = .recorded e ∧
      e.status = "error") ∧
    executeAgentFor false "calendar_agent" (.raises 1 "bad") =
      .recorded (errResult ("Calendar agent failed: " ++ "bad")) ∧
    runPlan false [("calendar_agent", .raises 1 "bad")] =
      (("calendar_agent", errResult ("Calendar agent failed: " ++ "bad")) ::
        (runPlan false []).1, (runPlan false []).2) :=
  ⟨c7_agent_execution_amended.1.1 61 (errResult "x") (by omega),
   by decide,
   c7_agent_execution_amended.2.2.2.2.2.2.2 false "calendar_agent"
     (.raises 1 "bad") [] (errResult ("Calendar agent failed: " ++ "bad"))
     (by decide)⟩

/-- C7 counterexample: an exception in the file agent is not converted to a
synthetic error slot — it propagates and aborts the rest of the plan (the
general agent never runs), and a 500-second file agent call completes
normally instead of hitting the claimed 120 s timeout. -/
theorem c7_counterexample :
    executeFileAgent true (.raises 1 "boom") = ExecOutcome.propagated "boom" ∧
    ¬ specAgentTimeoutContract (executeFileAgent true) 120 ∧
    runPlan true
      [("file_agent", .raises 1 "boom"),
       ("general_agent", .completes 1 { status := "success", message := "ok" })] =
      ([], some "boom") ∧
    executeFileAgent true (.completes 500 { status := "success", message := "ok" }) =
      .recorded { status := "success", message := "Advanced Document Analysis Complete" } := by
  refine ⟨rfl, ?_, rfl, rfl⟩
  intro h
  obtain ⟨e, he, -⟩ := h.2 1 "boom"
  exact ExecOutcome.noConfusion he

theorem sendEmailGo_exhaust (st : Store) (now : PyDateTime) (d : EmailDraft)
    (outcomes : Nat → AttemptOutcome) (c : Nat) (k : ErrorKind) (m : String)
    (h : outcomes c = .fail k m) :
    sendEmailGo st now d outcomes 0 c = exhaustRun st now d k m c := by
  have he : sendEmailGo st now d outcomes 0 c =
      match outcomes c with
      | .ok m t ts => successRun st now d m t ts
      | .fail k msg => exhaustRun st now d k msg c := rfl
  rw [he, h]

theorem sendEmailGo_fail_step (st : Store) (now : PyDateTime) (d : EmailDraft)
    (outcomes : Nat → AttemptOutcome) (r c : Nat) (k : ErrorKind) (m : String)
    (h : outcomes c = .fail k m) :
    sendEmailGo st now d outcomes (r + 1) c =
      { sendEmailGo st now d outcomes r (c + 1) with
          sleeps := (sendEmailGo st now d outcomes r (c + 1)).sleeps +
            RETRY_DELAY_SECONDS,
          attempts := (sendEmailGo st now d outcomes r (c + 1)).attempts + 1 } := by
  have he : sendEmailGo st now d outcomes (r + 1) c =
      match outcomes c with
      | .ok m t ts => successRun st now d m t ts
      | .fail _ _ =>
        { sendEmailGo st now d outcomes r (c + 1) with
            sleeps := (sendEmailGo st now d outcomes r (c + 1)).sleeps +
              RETRY_DELAY_SECONDS,
            attempts := (sendEmailGo st now d outcomes r (c + 1)).attempts + 1 } := rfl
  rw [he, h]

theorem sendEmailGo_success (st : Store) (now : PyDateTime) (d : EmailDraft)
    (outcomes : Nat → AttemptOutcome) (r c : Nat) (m t : String) (ts : PyDateTime)
    (h : outcomes c = .ok m t ts) :
    sendEmailGo st now d outcomes r c = successRun st now d m t ts := by
  cases r with
  | zero =>
    have he : sendEmailGo st now d outcomes 0 c =
        match outcomes c with
        | .ok m t ts => successRun st now d m t ts
        | .fail k msg => exhaustRun st now d k msg c := rfl
    rw [he, h]
  | succ r =>
    have he : sendEmailGo st now d outcomes (r + 1) c =
        match outcomes c with
        | .ok m t ts => successRun st now d m t ts
        | .fail _ _ =>
          { sendEmailGo st now d outcomes r (c + 1) with
              sleeps := (sendEmailGo st now d outcomes r (c + 1)).sleeps +
                RETRY_DELAY_SECONDS,
              attempts := (sendEmailGo st now d outcomes r (c + 1)).attempts + 1 } := rfl
    rw [he, h]

theorem sendEmailGo_allFail (st : Store) (now : PyDateTime) (d : EmailDraft)
    (outcomes : Nat → AttemptOutcome) (hf : failsAlways outcomes) (r : Nat) :
    ∀ c, (sendEmailGo st now d outcomes r c).attempts = r + 1 ∧
      (sendEmailGo st now d outcomes r c).sleeps = r * RETRY_DELAY_SECONDS ∧
      (sendEmailGo st now d outcomes r c).statusSet = some DraftStatus.failed ∧
      (sendEmailGo st now d outcomes r c).result.success = false ∧
      (sendEmailGo st now d outcomes r c).result.retry_count = r + c := by
  induction r with
  | zero =>
    intro c
    obtain ⟨k, m, h⟩ := hf c
    rw [sendEmailGo_exhaust st now d outcomes c k m h]
    refine ⟨rfl, rfl, rfl, rfl, ?_⟩
    show c = 0 + c
    omega
  | succ r ih =>
    intro c
    obtain ⟨k, m, h⟩ := hf c
    rw [sendEmailGo_fail_step st now d outcomes r c k m h]
    obtain ⟨ha, hs, hst, hsc, hrc⟩ := ih (c + 1)
    refine ⟨?_, ?_, ?_, ?_, ?_⟩
    · show (sendEmailGo st now d outcomes r (c + 1)).attempts + 1 = r + 1 + 1
      omega
    · show (sendEmailGo st now d outcomes r (c + 1)).sleeps + RETRY_DELAY_SECONDS =
        (r + 1) * RETRY_DELAY_SECONDS
      rw [hs]
      ring
    · exact hst
    · exact hsc
    · show (sendEmailGo st now d outcomes r (c + 1)).result.retry_count = r + 1 + c
      omega

/-- C2 (amended): the send worker does not classify provider errors — every
failed attempt, transient or permanent alike, is retried after a 5 s sleep
up to 3 retries; when all 4 attempts fail the draft is marked Failed and the
returned result has `retry_count = 3` (never 0), while a first-attempt
success marks the draft Sent with no sleep. -/
theorem c2_send_retry_amended (st : Store) (now : PyDateTime) (d : EmailDraft)
    (outcomes : Nat → AttemptOutcome) :
    (failsAlways outcomes →
      (sendEmail st now d outcomes 0).attempts = 4 ∧
      (sendEmail st now d outcomes 0).sleeps = 15 ∧
      (sendEmail st now d outcomes 0).statusSet = some DraftStatus.failed ∧
      (sendEmail st now d outcomes 0).result.success = false ∧
      (sendEmail st now d outcomes 0).result.retry_count = 3) ∧
    (∀ m t ts, outcomes 0 = .ok m t ts →
      (sendEmail st now d outcomes 0).attempts = 1 ∧
      (sendEmail st now d outcomes 0).sleeps = 0 ∧
      (sendEmail st now d outcomes 0).statusSet = some DraftStatus.sent ∧
      (sendEmail st now d outcomes 0).result.success = true) := by
  constructor
  · intro hf
    have he : sendEmail st now d outcomes 0 = sendEmailGo st now d outcomes 3 0 := rfl
    obtain ⟨ha, hs, hst, hsc, hrc⟩ := sendEmailGo_allFail st now d outcomes hf 3 0
    rw [he]
    exact ⟨ha, hs, hst, hsc, by omega⟩
  · intro m t ts h
    have he : sendEmail st now d outcomes 0 = sendEmailGo st now d outcomes 3 0 := rfl
    rw [he, sendEmailGo_success st now d outcomes 3 0 m t ts h]
    exact ⟨rfl, rfl, rfl, rfl⟩

/-- C2 amended witness: the all-fail characterization at a concrete
permanently-failing provider. -/
theorem c2_send_retry_amended_witness :
    failsAlways permOutcomes ∧
    (sendEmail [] wNow (mkTestDraft "d4" DraftStatus.approved) permOutcomes 0).attempts = 4 ∧
    (sendEmail [] wNow (mkTestDraft "d4" DraftStatus.approved) permOutcomes 0).statusSet =
      some DraftStatus.failed :=
  ⟨fun _ => ⟨ErrorKind.permanent, "Gmail API error: mailbox unavailable", rfl⟩,
   ((c2_send_retry_amended [] wNow (mkTestDraft "d4" DraftStatus.approved) permOutcomes).1
     (fun _ => ⟨ErrorKind.permanent, "Gmail API error: mailbox unavailable", rfl⟩)).1,
   (((c2_send_retry_amended [] wNow (mkTestDraft "d4" DraftStatus.approved) permOutcomes).1
     (fun _ => ⟨ErrorKind.permanent, "Gmail API error: mailbox unavailable", rfl⟩)).2).2.1⟩

/-- C2 counterexample: a send whose provider error is Permanent on every
attempt is retried 3 times (4 attempts, 15 s of sleeps) and the returned
result has `retry_count = 3` — refuting the claimed Approved → Failed
transition "without any retry" and `retry_count = 0`. -/
theorem c2_counterexample :
    (sendEmail [] wNow (mkTestDraft "d4" DraftStatus.approved) permOutcomes 0).result.retry_count = 3 ∧
    (sendEmail [] wNow (mkTestDraft "d4" DraftStatus.approved) permOutcomes 0).attempts = 4 ∧
    (sendEmail [] wNow (mkTestDraft "d4" DraftStatus.approved) permOutcomes 0).sleeps = 15 ∧
    (sendEmail [] wNow (mkTestDraft "d4" DraftStatus.approved) permOutcomes 0).statusSet =
      some DraftStatus.failed ∧
    (sendEmail [] wNow (mkTestDraft "d4" DraftStatus.approved) permOutcomes 0).result.success =
      false :=
  ⟨rfl, rfl, rfl, rfl, rfl⟩

/-- C1 (amended): approve/reject are accepted only in PendingApproval
(`process_decision` raises otherwise), send only in Approved (`queue_send`
and `send_approved_draft` return an error result otherwise, leaving the
store untouched), and Sent/Rejected/Failed are terminal for those
operations; however `request_approval` validates nothing and moves any
draft — including a Sent, Rejected or Failed one — to PendingApproval. -/
theorem c1_state_machine_amended (st : Store) (now decided : PyDateTime)
    (dec : ApprovalDecision) (d : EmailDraft) (outcomes : Nat → AttemptOutcome)
    (draft0 : EmailDraft)
    (hget : getDraft st dec.draft_id none = some d)
    (hnp : d.status ≠ DraftStatus.pending_approval) :
    processDecision st now dec = Except.error "Draft is not pending approval" ∧
    (d.status ≠ DraftStatus.approved →
      (queueSend st now dec.draft_id outcomes).result.success = false ∧
      (queueSend st now dec.draft_id outcomes).store = st ∧
      (queueSend st now dec.draft_id outcomes).statusSet = none) ∧
    (d.status ≠ DraftStatus.approved →
      sendApprovedDraft st now dec.draft_id false decided outcomes =
        Except.ok (errorRun st dec.draft_id "Draft must be approved before sending")) ∧
    (requestApproval st now draft0).2.status = DraftStatus.pending_approval := by
  refine ⟨?_, ?_, ?_, rfl⟩
  · unfold processDecision
    rw [hget]
    simp only [processDecisionGo]
    rw [if_pos hnp]
  · intro hna
    have hq : queueSend st now dec.draft_id outcomes =
        errorRun st dec.draft_id "Draft not approved" := by
      unfold queueSend
      rw [hget]
      simp only [queueSendGo]
      rw [if_pos hna]
    rw [hq]
    exact ⟨rfl, rfl, rfl⟩
  · intro hna
    unfold sendApprovedDraft
    rw [hget]
    simp only [sendApprovedGo]
    rw [if_neg (by simp : ¬(false = true ∧ d.status = DraftStatus.pending_approval))]
    show (if d.status ≠ DraftStatus.approved then
        Except.ok (errorRun st dec.draft_id "Draft must be approved before sending")
      else Except.ok (queueSend st now dec.draft_id outcomes)) = _
    rw [if_pos hna]

/-- C1 amended witness: the guards at a concrete store holding a Sent
draft. -/
theorem c1_state_machine_amended_witness :
    getDraft sentStore "d2" none = some sentStoredDraft ∧
    sentStoredDraft.status = DraftStatus.sent ∧
    processDecision sentStore wLater (approveDecision "d2") =
      Except.error "Draft is not pending approval" ∧
    (queueSend sentStore wLater "d2" permOutcomes).result.success = false ∧
    (requestApproval sentStore wLater sentStoredDraft).2.status =
      DraftStatus.pending_approval := by
  have hget : getDraft sentStore "d2" none = some sentStoredDraft := by decide
  have hnp : sentStoredDraft.status ≠ DraftStatus.pending_approval := by decide
  have h := c1_state_machine_amended sentStore wLater wLater (approveDecision "d2")
    sentStoredDraft permOutcomes sentStoredDraft hget hnp
  exact ⟨hget, by decide, h.1, (h.2.1 (by decide)).1, h.2.2.2⟩

/-- C1 counterexample: `request_approval` on a draft whose status is Sent
sets the status to PendingApproval — a Sent draft is not terminal under the
full operation set, refuting the claimed terminality. -/
theorem c1_counterexample :
    (mkTestDraft "d2" DraftStatus.sent).status = DraftStatus.sent ∧
    ((requestApproval [] wNow (mkTestDraft "d2" DraftStatus.sent)).2).status =
      DraftStatus.pending_approval :=
  ⟨rfl, rfl⟩

/-- C3 (amended): approving a draft that is not PendingApproval is an error,
including a draft that is already Approved — `process_decision` raises for
any non-pending status — and approving a Sent draft is likewise an error. -/
theorem c3_approve_amended (st : Store) (now : PyDateTime) (dec : ApprovalDecision)
    (d : EmailDraft) (hget : getDraft st dec.draft_id none = some d) :
    (d.status = DraftStatus.approved →
      processDecision st now dec = Except.error "Draft is not pending approval") ∧
    (d.status = DraftStatus.sent →
      processDecision st now dec = Except.error "Draft is not pending approval") := by
  have hbase : d.status ≠ DraftStatus.pending_approval →
      processDecision st now dec = Except.error "Draft is not pending approval" := by
    intro hnp
    unfold processDecision
    rw [hget]
    simp only [processDecisionGo]
    rw [if_pos hnp]
  constructor
  · intro h
    exact hbase (by rw [h]; decide)
  · intro h
    exact hbase (by rw [h]; decide)

/-- C3 amended witness: approving a concrete already-Approved draft is an
error. -/
theorem c3_approve_amended_witness :
    getDraft apprStore "d3" none = some apprStoredDraft ∧
    apprStoredDraft.status = DraftStatus.approved ∧
    processDecision apprStore wLater (approveDecision "d3") =
      Except.error "Draft is not pending approval" :=
  ⟨by decide, by decide,
   (c3_approve_amended apprStore wLater (approveDecision "d3") apprStoredDraft
     (by decide)).1 (by decide)⟩

/-- C3 counterexample: approving an already-Approved draft is not a
successful no-op — `process_decision` returns the not-pending error. -/
theorem c3_counterexample :
    processDecision apprStore wLater (approveDecision "d3") =
      Except.error "Draft is not pending approval" := by
  have hget : getDraft apprStore (approveDecision "d3").draft_id none =
      some apprStoredDraft := by decide
  have hnp : apprStoredDraft.status ≠ DraftStatus.pending_approval := by decide
  unfold processDecision
  rw [hget]
  simp only [processDecisionGo]
  rw [if_pos hnp]

end MultiAgent
